import Mathlib

/-!
# CartGenie — Cart Capture & Analysis Orchestration Engine: shallow embedding

A shallow embedding of the CartGenie Chrome extension core:

* `src/extension/content.js` — platform detection (`detectPlatform`),
  cart-item extraction (`scrapeCartItems`, `detectCurrency`), and the
  UI-injection retry loop (`tryInjectButton`, `waitForPageAndInject`);
* `src/extension/background.js` — the per-tab request orchestrator
  (`analyzeCart`, the `chrome.runtime.onMessage` listener, the
  `GET_ANALYSIS_RESULT` snapshot query, and the `chrome.tabs.onUpdated`
  badge reset).

JavaScript strings are modelled as Lean `String`, JS numbers produced by
`parseFloat` as a symbolic type `JsNum` (NaN, signed Infinity, or an exact
rational value; IEEE-754 rounding does not affect any of the predicates the
code evaluates on these values for realistic inputs, so values are kept
exact).  The DOM is abstracted to the data the code actually reads from it:
a cart row is the pair of optional text contents of its title and price
elements, and injection state is the number of trigger buttons plus the
presence of anchor/body elements.
-/

namespace CartGenie

/-! ## JavaScript string and number primitives -/

/-- The whitespace class matched by the JS regex `\s` (and trimmed by
`String.prototype.trim` / skipped by `parseFloat`), restricted to the
characters that occur in practice: ASCII whitespace plus NBSP. -/
def isJsWhitespace (c : Char) : Bool :=
  c = ' ' || c = '\t' || c = '\n' || c = '\r' || c = '\x0b' || c = '\x0c' || c = '\u00A0'

/-- JS `String.prototype.includes` (substring test). -/
def jsIncludes (s pat : String) : Bool :=
  decide (pat.toList <:+: s.toList)

/-- JS `String.prototype.trim`. -/
def jsTrim (s : String) : String :=
  String.mk (((s.toList.dropWhile isJsWhitespace).reverse.dropWhile isJsWhitespace).reverse)

/-- JS string truthiness: a string is truthy iff it is non-empty. -/
def jsTruthy (s : String) : Bool :=
  !s.isEmpty

/-- The result of JS `parseFloat`: NaN, a signed Infinity, or a finite value
(kept as an exact rational). -/
inductive JsNum where
  | nan : JsNum
  | inf (pos : Bool) : JsNum
  | fin (q : ℚ) : JsNum
deriving DecidableEq, Repr

/-- JS `isNaN` on a `parseFloat` result. -/
def JsNum.isNaNB : JsNum → Bool
  | .nan => true
  | _ => false

/-- The JS comparison `x > 0` on a `parseFloat` result (`NaN > 0` is false,
`Infinity > 0` is true). -/
def JsNum.gtZero : JsNum → Bool
  | .nan => false
  | .inf pos => pos
  | .fin q => decide (0 < q)

/-- Numeric value of a digit character. -/
def digitVal (c : Char) : ℕ :=
  c.toNat - '0'.toNat

/-- Value of a digit run read in base 10. -/
def digitsVal (ds : List Char) : ℕ :=
  ds.foldl (fun a c => a * 10 + digitVal c) 0

/-- `10 ^ e` as a rational, for an integer exponent. -/
def qpow10 : ℤ → ℚ
  | .ofNat n => (10 : ℚ) ^ n
  | .negSucc n => 1 / (10 : ℚ) ^ (n + 1)

/-- Intermediate result of parsing an unsigned `StrDecimalLiteral`. -/
inductive PFVal where
  | inf : PFVal
  | fin (q : ℚ) : PFVal

/-- Parse the longest unsigned decimal-literal prefix of `cs` following the
ECMAScript `parseFloat` grammar: `Infinity`, or digits, an optional fraction,
and an optional exponent part (an `e` not followed by digits is not
consumed: `parseFloat "1e"` is `1`). Returns `none` when no prefix parses. -/
def parseUnsignedDecimal (cs : List Char) : Option PFVal :=
  if "Infinity".toList.isPrefixOf cs then some .inf
  else
    let intPart := cs.takeWhile Char.isDigit
    let rest₁ := cs.dropWhile Char.isDigit
    let fracPart :=
      match rest₁ with
      | '.' :: t => t.takeWhile Char.isDigit
      | _ => []
    let rest₂ :=
      match rest₁ with
      | '.' :: t => t.dropWhile Char.isDigit
      | _ => rest₁
    if intPart.isEmpty && fracPart.isEmpty then none
    else
      let mant : ℚ :=
        (digitsVal intPart : ℚ) + (digitsVal fracPart : ℚ) / (10 : ℚ) ^ fracPart.length
      let expo : ℤ :=
        match rest₂ with
        | c :: t =>
          if c = 'e' || c = 'E' then
            match t with
            | '+' :: t₂ => (digitsVal (t₂.takeWhile Char.isDigit) : ℤ)
            | '-' :: t₂ =>
              if (t₂.takeWhile Char.isDigit).isEmpty then 0
              else -(digitsVal (t₂.takeWhile Char.isDigit) : ℤ)
            | _ => (digitsVal (t.takeWhile Char.isDigit) : ℤ)
          else 0
        | [] => 0
      some (.fin (mant * qpow10 expo))

/-- Attach a sign to a parsed unsigned value. -/
def signedJsNum (pos : Bool) : Option PFVal → JsNum
  | none => .nan
  | some .inf => .inf pos
  | some (.fin q) => .fin (if pos then q else -q)

/-- JS `parseFloat`: skip leading whitespace, read an optional sign, then the
longest unsigned decimal-literal prefix; NaN when nothing parses. -/
def jsParseFloat (s : String) : JsNum :=
  match s.toList.dropWhile isJsWhitespace with
  | '+' :: t => signedJsNum true (parseUnsignedDecimal t)
  | '-' :: t => signedJsNum false (parseUnsignedDecimal t)
  | cs => signedJsNum true (parseUnsignedDecimal cs)

/-! ## Platform Adapter Registry (`content.js`, `detectPlatform`, lines 79–168) -/

/-- Extraction ruleset: CSS selectors for cart rows, titles and prices
(`selectors` field of each platform configuration object). -/
structure Selectors where
  container : String
  title : String
  price : String
deriving DecidableEq, Repr

/-- A platform configuration object as built by `detectPlatform`. -/
structure Platform where
  name : String
  id : String
  color : String
  selectors : Selectors
deriving DecidableEq, Repr

/-- Amazon configuration (`content.js` lines 86–98). -/
def amazonPlatform : Platform :=
  { name := "Amazon", id := "amazon", color := "#ff9900"
  , selectors :=
    { container := "[data-name='Active Items'] [data-item-index], .sc-list-item-content, #sc-active-cart .sc-list-item"
    , title := "[data-cy='item-title'] span, .sc-product-title span, .sc-product-title a"
    , price := ".sc-product-price .a-offscreen, .sc-product-price .sc-price, .a-price .a-offscreen" } }

/-- Flipkart configuration (`content.js` lines 102–111). -/
def flipkartPlatform : Platform :=
  { name := "Flipkart", id := "flipkart", color := "#2874f0"
  , selectors :=
    { container := "._1fragrcH, .sBxzFz"
    , title := "._2-4G_o a, .sBxzFz a, ._3I9Jbp"
    , price := "._30jeq3._16Jk6d, ._30jeq3._1_bKsh, .WMgn0j" } }

/-- BigBasket configuration (`content.js` lines 115–124). -/
def bigbasketPlatform : Platform :=
  { name := "BigBasket", id := "bigbasket", color := "#84c225"
  , selectors :=
    { container := ".CartItemCard___StyledDiv-sc-1hz2rfp-0, .basket-item"
    , title := ".CartItemCard___StyledDiv2-sc-1hz2rfp-1 a, .product-name a"
    , price := ".CartItemCard___StyledDiv8-sc-1hz2rfp-7, .discnt-price" } }

/-- Swiggy Instamart configuration (`content.js` lines 128–138). -/
def swiggyPlatform : Platform :=
  { name := "Swiggy Instamart", id := "swiggy", color := "#fc8019"
  , selectors :=
    { container := ".CartItem, [class*='CartItem']"
    , title := ".CartItem h4, [class*='CartItem'] h4, [class*='Name']"
    , price := ".CartItem [class*='Price'], [class*='CartItem'] [class*='Price']" } }

/-- Walmart configuration (`content.js` lines 142–152). -/
def walmartPlatform : Platform :=
  { name := "Walmart", id := "walmart", color := "#0071ce"
  , selectors :=
    { container := "[data-automation-id='cart-line-item'], .cart-item"
    , title := "[data-automation-id='product-title'] a, .product-title-link"
    , price := "[itemprop='price'], .price-current" } }

/-- Target configuration (`content.js` lines 156–165). -/
def targetPlatform : Platform :=
  { name := "Target", id := "target", color := "#cc0000"
  , selectors :=
    { container := "[data-test='cartItem'], .cart-item"
    , title := "[data-test='product-title'] a, .product-title"
    , price := "[data-test='product-price'], .price" } }

/-- `detectPlatform` (`content.js` lines 79–168): an else-if chain over
hostname substring tests; inside the branch of the first hostname token that
matches, the platform is selected iff the url substring test of that branch
also passes, and `currentPlatform` stays null otherwise (later branches are
not tried). -/
def detectPlatform (url hostname : String) : Option Platform :=
  if jsIncludes hostname "amazon" then
    if jsIncludes url "/gp/cart" || jsIncludes url "/cart" then some amazonPlatform else none
  else if jsIncludes hostname "flipkart" then
    if jsIncludes url "/viewcart" || jsIncludes url "/cart" then some flipkartPlatform else none
  else if jsIncludes hostname "bigbasket" then
    if jsIncludes url "/basket" || jsIncludes url "/cart" then some bigbasketPlatform else none
  else if jsIncludes hostname "swiggy" then
    if jsIncludes url "/instamart" && jsIncludes url "/cart" then some swiggyPlatform else none
  else if jsIncludes hostname "walmart" then
    if jsIncludes url "/cart" then some walmartPlatform else none
  else if jsIncludes hostname "target" then
    if jsIncludes url "/cart" then some targetPlatform else none
  else none

/-- One adapter record of the registry: the platform configuration together
with its hostname token and url rule, in the order the branches of
`detectPlatform` are written. -/
structure AdapterRule where
  platform : Platform
  hostToken : String
  urlRule : String → Bool

/-- The adapter catalog in registration (branch) order. -/
def adapterRegistry : List AdapterRule :=
  [ ⟨amazonPlatform, "amazon", fun url => jsIncludes url "/gp/cart" || jsIncludes url "/cart"⟩
  , ⟨flipkartPlatform, "flipkart", fun url => jsIncludes url "/viewcart" || jsIncludes url "/cart"⟩
  , ⟨bigbasketPlatform, "bigbasket", fun url => jsIncludes url "/basket" || jsIncludes url "/cart"⟩
  , ⟨swiggyPlatform, "swiggy", fun url => jsIncludes url "/instamart" && jsIncludes url "/cart"⟩
  , ⟨walmartPlatform, "walmart", fun url => jsIncludes url "/cart"⟩
  , ⟨targetPlatform, "target", fun url => jsIncludes url "/cart"⟩ ]

/-- The full match rule of an adapter, per the spec: hostname contains the
retailer token AND the url passes the cart-page test. -/
def AdapterRule.matches (a : AdapterRule) (url hostname : String) : Bool :=
  jsIncludes hostname a.hostToken && a.urlRule url

/-- The identification contract as worded by the spec: evaluate each
registered adapter's match rule in registration order and return the first
adapter whose (full) rule matches, none when no rule matches.  Stated from
the spec's words for comparison with `detectPlatform`. -/
def identifySpec (url hostname : String) : Option Platform :=
  (adapterRegistry.find? (fun a => a.matches url hostname)).map AdapterRule.platform

/-- What the code actually computes, phrased over the registry: pick the
first adapter whose hostname token matches, then answer that adapter iff its
url rule also passes — later adapters are never consulted. -/
def detectPlatformChain (url hostname : String) : Option Platform :=
  match adapterRegistry.find? (fun a => jsIncludes hostname a.hostToken) with
  | some a => if a.urlRule url then some a.platform else none
  | none => none

/-! ## Extraction Engine (`content.js`, `scrapeCartItems` lines 334–390,
`detectCurrency` lines 395–401)

A cart row (one element matched by the container selector) is abstracted to
what the code reads from it: the text content of the title element and of
the price element located inside it, each absent when the corresponding
`querySelector` finds no element. -/

/-- A container row as seen by `scrapeCartItems`. -/
structure Row where
  titleEl : Option String
  priceEl : Option String
deriving DecidableEq, Repr

/-- A normalized cart item (`items.push({...})`, `content.js` lines 369–374). -/
structure CartItem where
  productTitle : String
  price : JsNum
  quantity : ℕ
  currency : String
deriving DecidableEq, Repr

/-- `detectCurrency` (`content.js` lines 395–401): INR when the hostname
contains the substring `.in`, USD otherwise. -/
def detectCurrency (hostname : String) : String :=
  if jsIncludes hostname ".in" then "INR" else "USD"

/-- The price-text normalization of `content.js` line 363–365:
`.replace(/[₹$,\s]/g, "").trim()` — remove every `₹`, `$`, comma and
whitespace character, then trim. -/
def normalizePriceText (s : String) : String :=
  jsTrim (String.mk (s.toList.filter
    (fun c => !(c = '₹' || c = '$' || c = ',' || isJsWhitespace c))))

/-- The per-row body of the `containers.forEach` loop in `scrapeCartItems`
(`content.js` lines 348–386): skip the row when the title or price element is
missing; otherwise trim the title, normalize and `parseFloat` the price, and
push an item (quantity hard-coded to 1) iff the title is truthy and the price
is neither NaN nor ≤ 0. -/
def scrapeItem (currency : String) (r : Row) : Option CartItem :=
  match r.titleEl, r.priceEl with
  | some t, some p =>
    let productTitle := jsTrim t
    let price := jsParseFloat (normalizePriceText p)
    if jsTruthy productTitle && !price.isNaNB && price.gtZero then
      some { productTitle := productTitle, price := price, quantity := 1, currency := currency }
    else none
  | _, _ => none

/-- `scrapeCartItems` (`content.js` lines 334–390): the rows matched by the
container selector are visited in document order and the accepted ones are
pushed, so the result is a `filterMap` over the row list. -/
def scrapeCartItems (currency : String) (rows : List Row) : List CartItem :=
  rows.filterMap (scrapeItem currency)

/-- Declarative row-acceptance predicate for the code's behaviour: both
elements present, trimmed title non-empty, and the parsed normalized price
neither NaN nor ≤ 0 (an `Infinity` parse passes this test). -/
def rowKept (r : Row) : Bool :=
  match r.titleEl, r.priceEl with
  | some t, some p =>
    let price := jsParseFloat (normalizePriceText p)
    jsTruthy (jsTrim t) && !price.isNaNB && price.gtZero
  | _, _ => false

/-- The item a kept row yields. -/
def rowItem (currency : String) (r : Row) : CartItem :=
  { productTitle := jsTrim (r.titleEl.getD "")
  , price := jsParseFloat (normalizePriceText (r.priceEl.getD ""))
  , quantity := 1
  , currency := currency }

/-- The spec's row-acceptance criterion, stated from its words: a row is kept
iff its title and price elements are present, its title is non-empty after
trimming, and its normalized price text parses to a finite value greater
than zero. -/
def specRowKept (r : Row) : Bool :=
  match r.titleEl, r.priceEl with
  | some t, some p =>
    jsTruthy (jsTrim t) &&
      (match jsParseFloat (normalizePriceText p) with
       | .fin q => decide (0 < q)
       | _ => false)
  | _, _ => false

/-- The spec's currency rule, stated from its words: a domain belonging to
the `.in` country-code top-level variant (a hostname ending in `.in`) maps
to INR, every other domain to the baseline USD. -/
def specCurrencyOfDomain (hostname : String) : String :=
  if ".in".toList.isSuffixOf hostname.toList then "INR" else "USD"

/-! ## Injection Scheduler (`content.js`, `tryInjectButton` lines 196–232,
`waitForPageAndInject` lines 173–191)

The page is abstracted to the facts the scheduler queries: how many elements
carry the trigger control's marker class `cartgenie-analyze-btn`, whether
some element matches one of the anchor candidate selectors, and whether
`document.body` is non-null (when no anchor exists, `appendChild` on a null
body throws and the attempt reports failure through the `catch` branch). -/

/-- Page state read and written by the injection scheduler. -/
structure Page where
  btnCount : ℕ
  anchorPresent : Bool
  bodyPresent : Bool
deriving DecidableEq, Repr

/-- `tryInjectButton` (`content.js` lines 196–232): an immediate no-op success
when a trigger control already exists; otherwise append one button to the
first anchor candidate or to the body, failing (via `catch`) only when
neither is available. -/
def tryInjectButton (p : Page) : Page × Bool :=
  if p.btnCount > 0 then (p, true)
  else if p.anchorPresent || p.bodyPresent then
    ({ p with btnCount := p.btnCount + 1 }, true)
  else (p, false)

/-- `this.maxRetries` (`content.js` line 26). -/
def maxRetries : ℕ := 5

/-- `waitForPageAndInject` (`content.js` lines 173–191): give up once
`retryCount` reaches `maxRetries`; otherwise attempt an injection and, on
failure, retry after the fixed delay with `retryCount` incremented.  The
page is held fixed across the retries ("immediate succession"). -/
def waitForPageAndInject (retryCount : ℕ) (p : Page) : Page :=
  if _h : maxRetries ≤ retryCount then p
  else
    match tryInjectButton p with
    | (p', true) => p'
    | (p', false) => waitForPageAndInject (retryCount + 1) p'
termination_by maxRetries - retryCount
decreasing_by omega

/-- The scheduler entry point: a fresh `CartGenieContent` starts with
`retryCount = 0` (`content.js` line 25) and `init` calls
`waitForPageAndInject` once a platform is matched. -/
def scheduleInjection (p : Page) : Page :=
  waitForPageAndInject 0 p

/-! ## Request Orchestrator (`background.js`)

`background.js` keeps three process-wide `Map`s keyed by tab id
(`analysisResults`, `analysisErrors`, `loadingStates`, lines 22–24) plus the
per-tab badge set through `chrome.action`.  Every handler touches only the
entries of one tab, so the state is modelled per session (per tab): each
`Session` value gathers that tab's entry of each map (`none` = key absent),
the badge text for that tab, whether a `fetch` issued for that tab is still
pending (the suspended `analyzeCart` frame between its `await` and its
resolution), and a count of the network calls issued for the tab.

`analyzeCart` is `async`: it runs synchronously from the guard (line 41)
through the `fetch` call (line 72) and suspends; the rest (lines 82–108)
runs when the response settles.  Those two atomic segments are modelled as
`analyzeCartStart` and `analyzeCartResolve`. -/

/-- An alternative offered for one cart item (part of the response body). -/
structure Alternative where
  productTitle : String
  price : ℚ
  currency : String
  retailer : String
  url : String
deriving DecidableEq, Repr

/-- One recommendation of the response body. -/
structure Recommendation where
  originalItem : CartItem
  cheapestAlternative : Alternative
deriving DecidableEq, Repr

/-- A parsed optimization response body (`result = await response.json()`,
stored opaquely by the background script). -/
structure OptimizationResult where
  originalTotal : ℚ
  optimizedTotal : ℚ
  currency : String
  totalSavings : ℚ
  recommendations : List Recommendation
deriving DecidableEq, Repr

/-- The per-tab state of the background script. -/
structure Session where
  result : Option OptimizationResult
  error : Option String
  loading : Option Bool
  badgeText : String
  inFlight : Bool
  networkCalls : ℕ
deriving DecidableEq, Repr

/-- The state of a tab no handler has touched: no map has an entry for the
key, no badge has been set, nothing is pending. -/
def initSession : Session :=
  { result := none, error := none, loading := none
  , badgeText := "", inFlight := false, networkCalls := 0 }

/-- How a `fetch` issued by `analyzeCart` settles, as seen by lines 82–108:
a 2xx response whose body parses (`.ok`), a non-2xx response — the code
throws the `Error` it builds on line 83 (`.httpError`), or a rejection from
the network or the body parse whose message the runtime supplies (`.exn`). -/
inductive FetchOutcome where
  | ok (result : OptimizationResult) : FetchOutcome
  | httpError (status : ℕ) (statusText : String) : FetchOutcome
  | exn (message : String) : FetchOutcome

/-- The error message built on `background.js` lines 83–85 for a non-2xx
status. -/
def httpErrorMessage (status : ℕ) (statusText : String) : String :=
  "API responded with status: " ++ toString status ++ " - " ++ statusText

/-- The message stored for a failing outcome (`error.message` on line 101);
`none` for a success. -/
def fetchFailureMessage : FetchOutcome → Option String
  | .ok _ => none
  | .httpError status statusText => some (httpErrorMessage status statusText)
  | .exn m => some m

/-- The synchronous prefix of `analyzeCart` (`background.js` lines 39–79):
return untouched when the tab's loading flag holds `true` (lines 41–44);
otherwise set the loading flag, delete the tab's previous result and error
(lines 47–49), and issue the `fetch` (line 72). -/
def analyzeCartStart (s : Session) : Session :=
  if s.loading = some true then s
  else
    { s with loading := some true, result := none, error := none
           , inFlight := true, networkCalls := s.networkCalls + 1 }

/-- The continuation of `analyzeCart` once its `fetch` settles
(`background.js` lines 82–108): store the parsed result and show the success
badge on a 2xx response, store the error message and show the error badge
otherwise; the `finally` block sets the loading flag to `false` either way.
A no-op when no call is pending for the session. -/
def analyzeCartResolve (o : FetchOutcome) (s : Session) : Session :=
  if s.inFlight then
    match o with
    | .ok r =>
      { s with result := some r, badgeText := "✓", loading := some false, inFlight := false }
    | .httpError status statusText =>
      { s with error := some (httpErrorMessage status statusText), badgeText := "!"
             , loading := some false, inFlight := false }
    | .exn m =>
      { s with error := some m, badgeText := "!", loading := some false, inFlight := false }
  else s

/-- The `ANALYZE_CART` branch of the `chrome.runtime.onMessage` listener
(`background.js` lines 112–120): run the synchronous prefix of
`analyzeCart`, then set the loading badge — unconditionally, whether or not
the request was ignored by the guard. -/
def handleAnalyzeCartMessage (s : Session) : Session :=
  let s₁ := analyzeCartStart s
  { s₁ with badgeText := "..." }

/-- The `chrome.tabs.onUpdated` listener (`background.js` lines 143–147):
when a navigation completes, clear the badge text and nothing else. -/
def handleTabUpdatedComplete (s : Session) : Session :=
  { s with badgeText := "" }

/-- The snapshot returned to the popup. -/
structure QueryResponse where
  isLoading : Bool
  result : Option OptimizationResult
  error : Option String
deriving DecidableEq, Repr

/-- The per-session read performed by the `GET_ANALYSIS_RESULT` branch when
an active tab is known (`background.js` lines 125–129):
`loadingStates.get(tabId) || false`, and the raw map entries for result and
error. -/
def querySession (s : Session) : QueryResponse :=
  { isLoading := s.loading.getD false, result := s.result, error := s.error }

/-- Tab identifiers. -/
abbrev TabId := ℕ

/-- The full `GET_ANALYSIS_RESULT` branch (`background.js` lines 121–137):
query the session of the active tab, or answer
`{isLoading: false, result: null, error: "No active tab"}` when no active
tab can be determined. -/
def getAnalysisResult (activeTab : Option TabId) (sessions : TabId → Session) :
    QueryResponse :=
  match activeTab with
  | some t => querySession (sessions t)
  | none => { isLoading := false, result := none, error := some "No active tab" }

/-- The events that can touch one tab's session. -/
inductive BgEvent where
  | analyzeCartMessage : BgEvent
  | fetchResolved (o : FetchOutcome) : BgEvent
  | tabUpdatedComplete : BgEvent

/-- One event-loop turn touching the session. -/
def stepSession (s : Session) : BgEvent → Session
  | .analyzeCartMessage => handleAnalyzeCartMessage s
  | .fetchResolved o => analyzeCartResolve o s
  | .tabUpdatedComplete => handleTabUpdatedComplete s

/-- The session after a sequence of events on a fresh tab. -/
def runSession (es : List BgEvent) : Session :=
  es.foldl stepSession initSession

/-- The orchestrator's session invariant: at most one of result and error is
present, and while a call is in flight the loading flag is set and both the
result and the error entries are deleted. -/
def SessionInv (s : Session) : Prop :=
  (s.result = none ∨ s.error = none) ∧
    (s.inFlight = true → s.loading = some true ∧ s.result = none ∧ s.error = none)

/-! ## Helper lemmas -/

/-- Every event-loop turn preserves the session invariant. -/
theorem stepSession_inv (s : Session) (e : BgEvent) (h : SessionInv s) :
    SessionInv (stepSession s e) := by
  obtain ⟨h₁, h₂⟩ := h
  cases e with
  | analyzeCartMessage =>
    show SessionInv (handleAnalyzeCartMessage s)
    by_cases hl : s.loading = some true
    · have hmsg : handleAnalyzeCartMessage s = { s with badgeText := "..." } := by
        simp [handleAnalyzeCartMessage, analyzeCartStart, hl]
      rw [hmsg]
      exact ⟨h₁, fun hf => h₂ hf⟩
    · have hmsg : handleAnalyzeCartMessage s =
          { result := none, error := none, loading := some true, badgeText := "..."
          , inFlight := true, networkCalls := s.networkCalls + 1 } := by
        simp [handleAnalyzeCartMessage, analyzeCartStart, hl]
      rw [hmsg]
      exact ⟨Or.inl rfl, fun _ => ⟨rfl, rfl, rfl⟩⟩
  | fetchResolved o =>
    show SessionInv (analyzeCartResolve o s)
    by_cases hf : s.inFlight = true
    · obtain ⟨-, hr, he⟩ := h₂ hf
      cases o with
      | ok r =>
        have hres : analyzeCartResolve (.ok r) s =
            { s with result := some r, badgeText := "✓", loading := some false
                   , inFlight := false } := by
          simp [analyzeCartResolve, hf]
        rw [hres]
        exact ⟨Or.inr he, fun hc => by simp at hc⟩
      | httpError status statusText =>
        have hres : analyzeCartResolve (.httpError status statusText) s =
            { s with error := some (httpErrorMessage status statusText), badgeText := "!"
                   , loading := some false, inFlight := false } := by
          simp [analyzeCartResolve, hf]
        rw [hres]
        exact ⟨Or.inl hr, fun hc => by simp at hc⟩
      | exn m =>
        have hres : analyzeCartResolve (.exn m) s =
            { s with error := some m, badgeText := "!", loading := some false
                   , inFlight := false } := by
          simp [analyzeCartResolve, hf]
        rw [hres]
        exact ⟨Or.inl hr, fun hc => by simp at hc⟩
    · have hres : analyzeCartResolve o s = s := by simp [analyzeCartResolve, hf]
      rw [hres]
      exact ⟨h₁, h₂⟩
  | tabUpdatedComplete =>
    show SessionInv (handleTabUpdatedComplete s)
    exact ⟨h₁, fun hf => h₂ hf⟩

/-- The session invariant holds along any event sequence. -/
theorem foldl_stepSession_inv (es : List BgEvent) (s : Session) (h : SessionInv s) :
    SessionInv (es.foldl stepSession s) := by
  induction es generalizing s with
  | nil => exact h
  | cons e es ih => exact ih _ (stepSession_inv s e h)

/-- The session invariant holds in every reachable session state. -/
theorem runSession_inv (es : List BgEvent) : SessionInv (runSession es) :=
  foldl_stepSession_inv es initSession ⟨Or.inl rfl, fun hc => by simp [initSession] at hc⟩

/-! ## Claims -/

/-- C1: if an analysis request arrives for a session whose loading flag is
set (state `Requesting`), the request is ignored entirely: the `analyzeCart`
call is a complete no-op (in particular no new network call is issued), and
the message handler leaves the session's stored result, error and loading
flag unchanged. -/
theorem analyzeCart_ignored_when_requesting (s : Session) (h : s.loading = some true) :
    analyzeCartStart s = s ∧
    (handleAnalyzeCartMessage s).networkCalls = s.networkCalls ∧
    (handleAnalyzeCartMessage s).result = s.result ∧
    (handleAnalyzeCartMessage s).error = s.error ∧
    (handleAnalyzeCartMessage s).loading = s.loading := by
  have hs : analyzeCartStart s = s := by simp [analyzeCartStart, h]
  refine ⟨hs, ?_, ?_, ?_, ?_⟩ <;> simp [handleAnalyzeCartMessage, hs]

/-- Witness for C1: a concrete session in `Requesting`. -/
theorem analyzeCart_ignored_when_requesting_witness :
    analyzeCartStart ⟨none, none, some true, "...", true, 1⟩ =
      ⟨none, none, some true, "...", true, 1⟩ ∧
    (handleAnalyzeCartMessage ⟨none, none, some true, "...", true, 1⟩).networkCalls = 1 := by
  obtain ⟨h₁, h₂, -⟩ :=
    analyzeCart_ignored_when_requesting ⟨none, none, some true, "...", true, 1⟩ rfl
  exact ⟨h₁, h₂⟩

/-- C5: the page-navigation-completed event clears only the badge text and
leaves the session's result, error, loading flag and pending call untouched,
so the snapshot query answers exactly as before; in particular after a
completed analysis the stored result is still returned with `isLoading`
false. -/
theorem tabUpdated_clears_only_badge (s : Session) :
    ((handleTabUpdatedComplete s).badgeText = "" ∧
      (handleTabUpdatedComplete s).result = s.result ∧
      (handleTabUpdatedComplete s).error = s.error ∧
      (handleTabUpdatedComplete s).loading = s.loading ∧
      (handleTabUpdatedComplete s).inFlight = s.inFlight ∧
      querySession (handleTabUpdatedComplete s) = querySession s) ∧
    ∀ r : OptimizationResult,
      querySession (runSession [.analyzeCartMessage, .fetchResolved (.ok r), .tabUpdatedComplete]) =
        { isLoading := false, result := some r, error := none } := by
  exact ⟨⟨rfl, rfl, rfl, rfl, rfl, rfl⟩, fun r => rfl⟩

/-- C9: in every reachable session state, at most one of the stored result
and the stored error is present. -/
theorem session_result_error_exclusive (es : List BgEvent) :
    (runSession es).result = none ∨ (runSession es).error = none :=
  (runSession_inv es).1

/-- C10: when a snapshot query arrives and no active tab can be determined,
the response reports `isLoading` false, no result, and the non-empty error
text "No active tab", regardless of the stored sessions. -/
theorem getAnalysisResult_noActiveTab (sessions : TabId → Session) :
    getAnalysisResult none sessions =
      { isLoading := false, result := none, error := some "No active tab" } ∧
    "No active tab" ≠ "" :=
  ⟨rfl, by decide⟩

/-- C4: when the in-flight optimization call of a reachable session fails —
non-2xx status (the code then throws the message it builds, which is never
empty) or a network/parse rejection whose runtime-supplied message is
non-empty — the session transitions to `Failed`: the message is stored, no
result is stored, the in-flight marker and loading flag are cleared so that
a subsequent request is permitted (it issues a new network call), and the
snapshot query reports `isLoading` false, no result, and that message. -/
theorem analyzeCart_failure_transition (es : List BgEvent) (o : FetchOutcome) (m : String)
    (hin : (runSession es).inFlight = true)
    (hm : fetchFailureMessage o = some m) (hne : m ≠ "") :
    (analyzeCartResolve o (runSession es)).error = some m ∧ m ≠ "" ∧
    (analyzeCartResolve o (runSession es)).result = none ∧
    (analyzeCartResolve o (runSession es)).inFlight = false ∧
    querySession (analyzeCartResolve o (runSession es)) =
      { isLoading := false, result := none, error := some m } ∧
    (analyzeCartStart (analyzeCartResolve o (runSession es))).networkCalls =
      (analyzeCartResolve o (runSession es)).networkCalls + 1 ∧
    (∀ status statusText, httpErrorMessage status statusText ≠ "") := by
  have hres : (runSession es).result = none := ((runSession_inv es).2 hin).2.1
  have hmsg : ∀ status statusText, httpErrorMessage status statusText ≠ "" := by
    intro status statusText hc
    have : "API responded with status: ".length ≤ (httpErrorMessage status statusText).length := by
      simp [httpErrorMessage, String.length_append]
      omega
    rw [hc] at this
    exact absurd this (by decide)
  cases o with
  | ok r => simp [fetchFailureMessage] at hm
  | httpError status statusText =>
    obtain rfl : httpErrorMessage status statusText = m := by
      simpa [fetchFailureMessage] using hm
    refine ⟨?_, hne, ?_, ?_, ?_, ?_, hmsg⟩ <;>
      simp [analyzeCartResolve, hin, querySession, hres, analyzeCartStart]
  | exn msg =>
    obtain rfl : msg = m := by simpa [fetchFailureMessage] using hm
    refine ⟨?_, hne, ?_, ?_, ?_, ?_, hmsg⟩ <;>
      simp [analyzeCartResolve, hin, querySession, hres, analyzeCartStart]

/-- Witness for C4: an accepted request whose call comes back with HTTP 500. -/
theorem analyzeCart_failure_transition_witness :
    querySession (analyzeCartResolve (.httpError 500 "Internal Server Error")
        (runSession [.analyzeCartMessage])) =
      { isLoading := false, result := none
      , error := some (httpErrorMessage 500 "Internal Server Error") } ∧
    (analyzeCartResolve (.httpError 500 "Internal Server Error")
        (runSession [.analyzeCartMessage])).result = none :=
  have h := analyzeCart_failure_transition [.analyzeCartMessage]
    (.httpError 500 "Internal Server Error") (httpErrorMessage 500 "Internal Server Error")
    rfl rfl (by decide)
  ⟨h.2.2.2.2.1, h.2.2.1⟩

/-- C6 counterexample: a session already in `Requesting` whose badge has been
cleared by a navigation; a further analysis request is ignored by the
at-most-one-in-flight guard (no state-machine transition occurs, nothing but
the badge changes), yet the message listener still sets the in-progress
badge, so the visual signal does change. -/
theorem badge_set_even_when_request_ignored :
    (runSession [.analyzeCartMessage, .tabUpdatedComplete]).loading = some true ∧
    (runSession [.analyzeCartMessage, .tabUpdatedComplete]).badgeText = "" ∧
    stepSession (runSession [.analyzeCartMessage, .tabUpdatedComplete]) .analyzeCartMessage =
      { runSession [.analyzeCartMessage, .tabUpdatedComplete] with badgeText := "..." } :=
  ⟨rfl, rfl, rfl⟩

/-- C6 amended: the in-progress badge is set at every `ANALYZE_CART` message
the listener receives — including requests the at-most-one-in-flight guard
ignores — not only when a transition to `Requesting` occurs; the success
badge is set on `Completed`, the error badge on `Failed`, and the badge is
cleared on page-navigation-completed. -/
theorem badge_transitions (s : Session) (r : OptimizationResult) (status : ℕ)
    (statusText m : String) :
    (handleAnalyzeCartMessage s).badgeText = "..." ∧
    (s.inFlight = true →
      (analyzeCartResolve (.ok r) s).badgeText = "✓" ∧
      (analyzeCartResolve (.httpError status statusText) s).badgeText = "!" ∧
      (analyzeCartResolve (.exn m) s).badgeText = "!") ∧
    (handleTabUpdatedComplete s).badgeText = "" := by
  refine ⟨rfl, fun hf => ?_, rfl⟩
  refine ⟨?_, ?_, ?_⟩ <;> simp [analyzeCartResolve, hf]

/-- Witness for C6's amended statement: a session with a pending call. -/
theorem badge_transitions_witness :
    (handleAnalyzeCartMessage (runSession [.analyzeCartMessage])).badgeText = "..." ∧
    (analyzeCartResolve (.ok ⟨0, 0, "USD", 0, []⟩)
      (runSession [.analyzeCartMessage])).badgeText = "✓" ∧
    (analyzeCartResolve (.httpError 500 "Internal Server Error")
      (runSession [.analyzeCartMessage])).badgeText = "!" :=
  have h := badge_transitions (runSession [.analyzeCartMessage]) ⟨0, 0, "USD", 0, []⟩
    500 "Internal Server Error" "NetworkError when attempting to fetch resource."
  ⟨h.1, (h.2.1 rfl).1, (h.2.1 rfl).2.1⟩

/-- C3 counterexample: a pair on which an adapter's full match rule
(hostname token AND cart-page token) holds — Flipkart's, since the hostname
contains "flipkart" and the url contains "/viewcart" — yet `detectPlatform`
returns none: the hostname also contains "amazon", so the Amazon branch is
entered, its url test fails, and no later adapter is consulted.  First-match
semantics over the full rules would return the Flipkart adapter. -/
theorem detectPlatform_not_first_full_match :
    detectPlatform "https://amazon-flipkart.com/viewcart" "amazon-flipkart.com" = none ∧
    identifySpec "https://amazon-flipkart.com/viewcart" "amazon-flipkart.com" =
      some flipkartPlatform := by
  constructor <;> with_unfolding_all rfl

/-- C3 amended: `detectPlatform` evaluates the adapters' hostname tokens in
registration order and commits to the first adapter whose hostname token
matches: it returns that adapter iff its url rule also matches and none
otherwise, never consulting later adapters; on every supported retailer
url/hostname pair of the catalog it returns exactly that retailer's adapter,
and it returns none on a non-matching pair. -/
theorem detectPlatform_eq_chain :
    (∀ url hostname, detectPlatform url hostname = detectPlatformChain url hostname) ∧
    detectPlatform "https://www.amazon.in/gp/cart/view.html" "www.amazon.in" =
      some amazonPlatform ∧
    detectPlatform "https://www.flipkart.com/viewcart" "www.flipkart.com" =
      some flipkartPlatform ∧
    detectPlatform "https://www.bigbasket.com/basket/" "www.bigbasket.com" =
      some bigbasketPlatform ∧
    detectPlatform "https://www.swiggy.com/instamart/cart" "www.swiggy.com" =
      some swiggyPlatform ∧
    detectPlatform "https://www.walmart.com/cart" "www.walmart.com" =
      some walmartPlatform ∧
    detectPlatform "https://www.target.com/cart" "www.target.com" =
      some targetPlatform ∧
    detectPlatform "https://www.example.com/cart" "www.example.com" = none := by
  refine ⟨?_, ?_, ?_, ?_, ?_, ?_, ?_, ?_⟩
  case _ =>
    intro url hostname
    cases hA : jsIncludes hostname "amazon" <;>
    cases hF : jsIncludes hostname "flipkart" <;>
    cases hB : jsIncludes hostname "bigbasket" <;>
    cases hS : jsIncludes hostname "swiggy" <;>
    cases hW : jsIncludes hostname "walmart" <;>
    cases hT : jsIncludes hostname "target" <;>
      simp [detectPlatform, detectPlatformChain, adapterRegistry, List.find?,
        hA, hF, hB, hS, hW, hT]
  all_goals with_unfolding_all rfl

/-- The per-row loop body accepts a row iff `rowKept` holds, and then yields
`rowItem`. -/
theorem scrapeItem_eq (currency : String) (r : Row) :
    scrapeItem currency r = if rowKept r then some (rowItem currency r) else none := by
  obtain ⟨t, p⟩ := r
  cases t <;> cases p <;> simp [scrapeItem, rowKept, rowItem]

/-- `scrapeCartItems` returns exactly the kept rows, mapped to their items,
in document order. -/
theorem scrapeCartItems_eq_filter_map (currency : String) (rows : List Row) :
    scrapeCartItems currency rows = (rows.filter rowKept).map (rowItem currency) := by
  induction rows with
  | nil => rfl
  | cons r rs ih =>
    simp only [scrapeCartItems] at ih ⊢
    by_cases h : rowKept r <;>
      simp [List.filterMap_cons, List.filter_cons, scrapeItem_eq, h, ih]

/-- C2 counterexample: a row whose price text is "Infinity" parses (by JS
`parseFloat`) to positive Infinity, which is not a finite value greater than
zero, so the claim requires the row to be excluded — yet the code keeps it,
because it only checks `!isNaN(price) && price > 0` and never finiteness.
A second divergence: the normalization strips only `₹`, `$`, commas and
whitespace, so a price of "€12" does not parse and the row is excluded,
although its text with currency symbols stripped would parse to 12 > 0. -/
theorem scrapeCartItems_keeps_infinity_price :
    specRowKept ⟨some "Gift Card", some "Infinity"⟩ = false ∧
    scrapeCartItems "USD" [⟨some "Gift Card", some "Infinity"⟩] =
      [{ productTitle := "Gift Card", price := .inf true, quantity := 1, currency := "USD" }] ∧
    scrapeCartItems "USD" [⟨some "Dark Chocolate", some "€12"⟩] = [] := by
  refine ⟨?_, ?_, ?_⟩ <;> with_unfolding_all rfl

/-- C2 amended: `extract` returns exactly the accepted container rows as
items, in document order, each with quantity 1; a row is excluded iff its
title or price element is absent, its title is empty after trimming, or its
price text — after removing exactly the characters `₹`, `$`, comma and
whitespace — fails JS `parseFloat` (NaN) or parses to a value not greater
than zero, where a positive-Infinity parse counts as greater than zero
(finiteness is not checked).  The claim's examples hold: "₹1,299.00" yields
1299 and is kept, "Free" is excluded. -/
theorem scrapeCartItems_characterization (currency : String) (rows : List Row) :
    scrapeCartItems currency rows = (rows.filter rowKept).map (rowItem currency) ∧
    (∀ item ∈ scrapeCartItems currency rows, item.quantity = 1) ∧
    scrapeCartItems "INR" [⟨some " Sony WH-1000XM5 ", some "₹1,299.00"⟩] =
      [{ productTitle := "Sony WH-1000XM5", price := .fin 1299, quantity := 1
       , currency := "INR" }] ∧
    scrapeCartItems "INR" [⟨some "Sample", some "Free"⟩] = [] := by
  refine ⟨scrapeCartItems_eq_filter_map currency rows, ?_, ?_, ?_⟩
  · intro item hmem
    rw [scrapeCartItems_eq_filter_map] at hmem
    obtain ⟨r, -, rfl⟩ := List.mem_map.mp hmem
    rfl
  · with_unfolding_all rfl
  · with_unfolding_all rfl

/-- Witness for C2's amended statement: the claim's own example row. -/
theorem scrapeCartItems_characterization_witness :
    scrapeCartItems "INR" [⟨some " Sony WH-1000XM5 ", some "₹1,299.00"⟩] =
      ([⟨some " Sony WH-1000XM5 ", some "₹1,299.00"⟩].filter rowKept).map (rowItem "INR") ∧
    ({ productTitle := "Sony WH-1000XM5", price := .fin 1299, quantity := 1
     , currency := "INR" } : CartItem).quantity = 1 := by
  obtain ⟨h₁, h₂, h₃, -⟩ :=
    scrapeCartItems_characterization "INR" [⟨some " Sony WH-1000XM5 ", some "₹1,299.00"⟩]
  refine ⟨h₁, h₂ _ ?_⟩
  rw [h₃]
  exact List.mem_singleton_self _

/-- C7 counterexample: `detectCurrency` tests for `.in` as a substring
anywhere in the hostname, not as the country-code top-level domain, so a
`.com` domain that merely contains `.in` (here inside "infinite") is mapped
to INR although the claim's rule maps every non-ccTLD-variant domain to the
baseline USD. -/
theorem detectCurrency_not_tld_based :
    detectCurrency "cart.infinite-deals.com" = "INR" ∧
    specCurrencyOfDomain "cart.infinite-deals.com" = "USD" := by
  constructor <;> with_unfolding_all rfl

/-- C7 amended: every extracted item's currency is a function of the
session's source hostname alone — it is never read from the page; a hostname
containing the substring `.in` (in particular every hostname ending in
`.in`) maps to INR, and every hostname not containing that substring maps to
USD. -/
theorem currency_function_of_domain (hostname : String) (rows : List Row) (item : CartItem)
    (hmem : item ∈ scrapeCartItems (detectCurrency hostname) rows) :
    item.currency = detectCurrency hostname ∧
    (".in".toList.isSuffixOf hostname.toList = true → detectCurrency hostname = "INR") ∧
    (jsIncludes hostname ".in" = false → detectCurrency hostname = "USD") := by
  refine ⟨?_, ?_, ?_⟩
  · rw [scrapeCartItems_eq_filter_map] at hmem
    obtain ⟨r, -, rfl⟩ := List.mem_map.mp hmem
    rfl
  · intro hsuf
    rw [List.isSuffixOf_iff_suffix] at hsuf
    have hinc : jsIncludes hostname ".in" = true := by
      simp only [jsIncludes, decide_eq_true_eq]
      exact hsuf.isInfix
    simp [detectCurrency, hinc]
  · intro hno
    simp [detectCurrency, hno]

/-- Witness for C7's amended statement: a row scraped on `www.amazon.in`. -/
theorem currency_function_of_domain_witness :
    ({ productTitle := "Mouse", price := .fin 10, quantity := 1, currency := "INR" }
        : CartItem).currency = detectCurrency "www.amazon.in" ∧
    detectCurrency "www.amazon.in" = "INR" := by
  have hl : scrapeCartItems (detectCurrency "www.amazon.in") [⟨some "Mouse", some "₹10"⟩] =
      [{ productTitle := "Mouse", price := .fin 10, quantity := 1, currency := "INR" }] := by
    with_unfolding_all rfl
  have hmem : ({ productTitle := "Mouse", price := .fin 10, quantity := 1, currency := "INR" }
      : CartItem) ∈ scrapeCartItems (detectCurrency "www.amazon.in")
        [⟨some "Mouse", some "₹10"⟩] := by
    rw [hl]
    exact List.mem_singleton_self _
  have h := currency_function_of_domain "www.amazon.in" [⟨some "Mouse", some "₹10"⟩] _ hmem
  exact ⟨h.1, h.2.1 (by decide)⟩

/-- An existing trigger control makes the injection attempt an immediate
no-op success. -/
theorem tryInjectButton_of_pos (p : Page) (h : 0 < p.btnCount) :
    tryInjectButton p = (p, true) := by
  simp [tryInjectButton, h]

/-- The retry loop leaves a page with an existing trigger control untouched. -/
theorem waitForPageAndInject_of_pos (n : ℕ) (p : Page) (h : 0 < p.btnCount) :
    waitForPageAndInject n p = p := by
  unfold waitForPageAndInject
  split
  · rfl
  · rw [tryInjectButton_of_pos p h]

/-- With no trigger control yet and an anchor or body available, an attempt
injects exactly one button and succeeds. -/
theorem tryInjectButton_inject (p : Page) (h₀ : p.btnCount = 0)
    (h₁ : (p.anchorPresent || p.bodyPresent) = true) :
    tryInjectButton p = ({ p with btnCount := 1 }, true) := by
  simp [tryInjectButton, h₀, h₁]

/-- With no trigger control, no anchor and no body, an attempt fails and
changes nothing. -/
theorem tryInjectButton_stuck (p : Page) (h₀ : p.btnCount = 0)
    (ha : p.anchorPresent = false) (hb : p.bodyPresent = false) :
    tryInjectButton p = (p, false) := by
  simp [tryInjectButton, h₀, ha, hb]

/-- When every attempt fails, the retry loop terminates (after its bounded
budget) with the page unchanged. -/
theorem waitForPageAndInject_stuck (p : Page) (h : tryInjectButton p = (p, false)) :
    ∀ k n, maxRetries - n ≤ k → waitForPageAndInject n p = p := by
  intro k
  induction k with
  | zero =>
    intro n hn
    unfold waitForPageAndInject
    rw [dif_pos (by omega)]
  | succ k ih =>
    intro n hn
    unfold waitForPageAndInject
    split
    · rfl
    · rw [h]
      exact ih (n + 1) (by omega)

/-- C8: `scheduleInjection` is idempotent: on any page its second run
changes nothing, and on a page without a trigger control (injection
succeeding into an anchor or the body) the two runs together leave exactly
one trigger control; the attempt returns immediately, without injecting,
when a trigger control already exists. -/
theorem scheduleInjection_idempotent (p : Page) :
    scheduleInjection (scheduleInjection p) = scheduleInjection p ∧
    (p.btnCount = 0 → (p.anchorPresent || p.bodyPresent) = true →
      (scheduleInjection (scheduleInjection p)).btnCount = 1 ∧
      (scheduleInjection p).btnCount = 1) ∧
    (0 < p.btnCount → tryInjectButton p = (p, true) ∧ scheduleInjection p = p) := by
  have hpos : ∀ q : Page, 0 < q.btnCount → scheduleInjection q = q := fun q hq =>
    waitForPageAndInject_of_pos 0 q hq
  have hinj : ∀ q : Page, q.btnCount = 0 → (q.anchorPresent || q.bodyPresent) = true →
      scheduleInjection q = { q with btnCount := 1 } := by
    intro q h₀ h₁
    unfold scheduleInjection waitForPageAndInject
    rw [dif_neg (by simp [maxRetries]), tryInjectButton_inject q h₀ h₁]
  by_cases h₀ : 0 < p.btnCount
  · have h₁ := hpos p h₀
    refine ⟨by rw [h₁, h₁], fun hz => absurd hz (by omega), fun _ =>
      ⟨tryInjectButton_of_pos p h₀, h₁⟩⟩
  · have h₀' : p.btnCount = 0 := by omega
    by_cases h₁ : (p.anchorPresent || p.bodyPresent) = true
    · have e₁ := hinj p h₀' h₁
      have e₂ : scheduleInjection { p with btnCount := 1 } = { p with btnCount := 1 } :=
        hpos _ (by simp)
      refine ⟨by rw [e₁, e₂], fun _ _ => ?_, fun hc => absurd hc h₀⟩
      rw [e₁, e₂]
      exact ⟨rfl, rfl⟩
    · have hab : p.anchorPresent = false ∧ p.bodyPresent = false := by
        cases hA : p.anchorPresent <;> cases hB : p.bodyPresent <;> simp_all
      have ht := tryInjectButton_stuck p h₀' hab.1 hab.2
      have e₁ : scheduleInjection p = p := waitForPageAndInject_stuck p ht maxRetries 0 (by omega)
      exact ⟨by rw [e₁, e₁], fun _ hc => absurd hc h₁, fun hc => absurd hc h₀⟩

/-- Witness for C8: a fresh page whose body is present, and a page that
already holds the trigger control. -/
theorem scheduleInjection_idempotent_witness :
    scheduleInjection (scheduleInjection ⟨0, false, true⟩) =
      scheduleInjection ⟨0, false, true⟩ ∧
    (scheduleInjection ⟨0, false, true⟩).btnCount = 1 ∧
    tryInjectButton ⟨1, false, true⟩ = (⟨1, false, true⟩, true) := by
  have h₀ := scheduleInjection_idempotent ⟨0, false, true⟩
  have h₁ := scheduleInjection_idempotent ⟨1, false, true⟩
  exact ⟨h₀.1, (h₀.2.1 rfl rfl).2, (h₁.2.2 (by decide)).1⟩

end CartGenie
